import Mathlib

/-!
# Verification of the SWE_geo lineage-resolution core

A shallow embedding of the lineage-resolution core of the `SWE_geo`
repository (`utils.py` and the batch driver `find_current_geo.py`):

* a `Graph` is the directed multigraph built by
  `nx.from_pandas_edgelist(..., create_using=nx.MultiDiGraph())` from the
  change log: one directed edge per change record, carrying the effective
  date (`Datum ikraftträdande`) and change type (`Ändringstyp`);
* `create_children_graph` mirrors the function of the same name: reachable
  set of the query node (`nx.single_source_shortest_path_length`), edges of
  the induced subgraph on that set whose date is `>=` the query date, and
  the edge subgraph (`nx.edge_subgraph`) of those edges; a query node absent
  from the graph raises `nx.NodeNotFound`, modelled as an `Except.error`;
* `find_current_geo` mirrors the function of the same name, including the
  empty-subgraph fallback to `[node]`, the `NodeNotFound` handler, and the
  final `np.intersect1d` with the current-code list;
* `batchLoopAux`/`batchMain` mirror the query loop of the batch driver
  `find_current_geo.py::main`, including length dispatch, the skip of other
  lengths, and the `except ValueError` handler recording an empty result;
* `zfill`/`padCode` mirror the `np.loadtxt` converter
  `lambda s: s.zfill(len(s) + 1 if len(s) % 2 == 1 else len(s))`,
  with Python `str.zfill` semantics (a leading sign keeps its position).

Dates are modelled as integers (any totally ordered comparable stamp, e.g.
days since an epoch or a `YYYYMMDD` number); codes are strings.
-/

deriving instance DecidableEq for Except

/-- One change record turned into a graph edge: `Gammal kod` → `Ny kod`,
with effective date (`Datum ikraftträdande`) and change type
(`Ändringstyp`) as edge attributes. -/
structure Edge where
  src : String
  tgt : String
  date : Int
  chg : String
deriving DecidableEq, Repr

/-- The lineage multigraph: the edge list produced by
`nx.from_pandas_edgelist` with `create_using=nx.MultiDiGraph()`.
Parallel edges are allowed; the node set is derived from the edges. -/
structure Graph where
  edges : List Edge
deriving DecidableEq, Repr

/-- The node set of the graph: every source and target of an edge
(`from_pandas_edgelist` adds exactly the endpoints as nodes). -/
def Graph.nodes (g : Graph) : List String :=
  (g.edges.foldr (fun e acc => e.src :: e.tgt :: acc) []).dedup

/-- One breadth-first expansion step of the reachable set: keep the set and
add the target of every edge leaving it. -/
def stepReach (g : Graph) (ns : List String) : List String :=
  (ns ++ (g.edges.filter (fun e => decide (e.src ∈ ns))).map (fun e => e.tgt)).dedup

/-- Iterated expansion of the reachable set. -/
def reachAux (g : Graph) : Nat → List String → List String
  | 0, ns => ns
  | n + 1, ns => reachAux g n (stepReach g ns)

/-- The nodes reachable from `node` along directed edges, `node` included:
the key set of `nx.single_source_shortest_path_length(G=graph, source=node)`.
Iterating the one-step expansion `g.edges.length` times saturates, since a
shortest path uses pairwise distinct edges. -/
def descendants (g : Graph) (node : String) : List String :=
  reachAux g g.edges.length [node]

/-- Edges of the induced subgraph `graph.subgraph(nodes=ns)`: edges of the
graph with both endpoints in `ns`. -/
def inducedEdges (g : Graph) (ns : List String) : List Edge :=
  g.edges.filter (fun e => decide (e.src ∈ ns) && decide (e.tgt ∈ ns))

/-- The `future_edges` selection of `create_children_graph`: edges of the
induced subgraph whose effective date is on or after the query date
(the comprehension filters on `v >= date`). -/
def futureEdges (g : Graph) (ns : List String) (date : Int) : List Edge :=
  (inducedEdges g ns).filter (fun e => decide (date ≤ e.date))

/-- `create_children_graph(graph, node, date)`: compute the reachable set of
`node` (raising `NodeNotFound` when `node` is not a graph node, modelled as
an error), keep the on-or-after-date edges of the induced subgraph, and
return `nx.edge_subgraph` of those edges — the graph whose edges are the
selected edges and whose nodes are their endpoints. -/
def create_children_graph (g : Graph) (node : String) (date : Int) :
    Except String Graph :=
  if node ∈ g.nodes then
    Except.ok ⟨futureEdges g (descendants g node) date⟩
  else
    Except.error "NodeNotFound"

/-- Lexicographic strict order on character lists by code point. -/
def chLt : List Char → List Char → Bool
  | [], [] => false
  | [], _ :: _ => true
  | _ :: _, [] => false
  | a :: as, b :: bs =>
      if a.toNat < b.toNat then true
      else if b.toNat < a.toNat then false
      else chLt as bs

/-- Lexicographic strict order on strings by code point — the order numpy
uses when sorting string arrays. -/
def strLt (s t : String) : Bool :=
  chLt s.data t.data

/-- Insert into an ascending list, preserving order. -/
def insertSorted (x : String) : List String → List String
  | [] => [x]
  | y :: ys => if strLt y x then y :: insertSorted x ys else x :: y :: ys

/-- Ascending insertion sort on strings. -/
def sortStr (l : List String) : List String :=
  l.foldr insertSorted []

/-- `np.intersect1d(ar1, ar2)`: the sorted unique values present in both
arrays. -/
def intersect1d (ar1 ar2 : List String) : List String :=
  sortStr ((ar1.filter (fun x => decide (x ∈ ar2))).dedup)

/-- `find_current_geo(graph, node, date, all_current)`: build the children
subgraph; if it has no nodes fall back to `[node]`; on `NodeNotFound`
fall back to `[node]` when `node` is a current code and raise `ValueError`
otherwise; finally intersect with the current-code list via
`np.intersect1d`. -/
def find_current_geo (g : Graph) (node : String) (date : Int)
    (all_current : List String) : Except String (List String) :=
  match create_children_graph g node date with
  | Except.ok subgraph =>
      let subgraph_nodes := subgraph.nodes
      Except.ok (intersect1d
        (if subgraph_nodes = [] then [node] else subgraph_nodes) all_current)
  | Except.error _ =>
      if node ∈ all_current then
        Except.ok (intersect1d [node] all_current)
      else
        Except.error ("Geographic unit " ++ node ++ " does not exist.")

/-- The resolver as a call on the program state: the source performs only
read-only graph operations (`single_source_shortest_path_length`,
`subgraph`, `get_edge_attributes`, `edge_subgraph`, `list`), so the call
produces its answer and leaves the graph exactly as it found it. -/
def find_current_geo_call (g : Graph) (node : String) (date : Int)
    (all_current : List String) : Except String (List String) × Graph :=
  (find_current_geo g node date all_current, g)

/-- The `try`/`except ValueError` around `find_current_geo` in the batch
driver: a raised resolution error is caught and recorded as the empty
result `np.array([])`. -/
def tryResolve (g : Graph) (node : String) (date : Int)
    (all_current : List String) : List String :=
  match find_current_geo g node date all_current with
  | Except.ok current => current
  | Except.error _ => []

/-- The per-type data the batch driver loads once: one lineage graph and
one current-code list for municipalities (kommuner) and for counties
(län). -/
structure BatchEnv where
  graph_kommun : Graph
  kommuner_in_shp : List String
  graph_laen : Graph
  laen_in_shp : List String

/-- One output record of the batch driver: the queried node, the query
date, and the resolved current codes, as printed to the report file. -/
structure OutLine where
  node : String
  date : Int
  current : List String
deriving DecidableEq, Repr

/-- The batch loop of `find_current_geo.py::main`, with the lines already
written to the output file as accumulator: length 4 dispatches to the
kommun graph and current set, length 2 to the län ones, any other length
hits `continue`, and each resolved query appends one line. -/
def batchLoopAux (env : BatchEnv) (acc : List OutLine) :
    List (String × Int) → List OutLine
  | [] => acc
  | (node, year) :: rest =>
      if node.length = 4 then
        batchLoopAux env
          (acc ++ [⟨node, year, tryResolve env.graph_kommun node year env.kommuner_in_shp⟩])
          rest
      else if node.length = 2 then
        batchLoopAux env
          (acc ++ [⟨node, year, tryResolve env.graph_laen node year env.laen_in_shp⟩])
          rest
      else
        batchLoopAux env acc rest

/-- The batch run: the loop started on an empty output file. -/
def batchMain (env : BatchEnv) (queries : List (String × Int)) : List OutLine :=
  batchLoopAux env [] queries

/-- Independent resolution of a single batch query: the line it contributes
to the report, or `none` when its code length is neither 4 nor 2. -/
def batchResolveOne (env : BatchEnv) (q : String × Int) : Option OutLine :=
  if q.1.length = 4 then
    some ⟨q.1, q.2, tryResolve env.graph_kommun q.1 q.2 env.kommuner_in_shp⟩
  else if q.1.length = 2 then
    some ⟨q.1, q.2, tryResolve env.graph_laen q.1 q.2 env.laen_in_shp⟩
  else
    none

/-- Python `str.zfill(width)`: unchanged when already at least `width`
long; otherwise left-filled with ASCII zeros up to `width`, except that a
leading `+` or `-` keeps its position and the zeros go after it. -/
def zfill (s : String) (width : Nat) : String :=
  if width ≤ s.length then s
  else
    match s.data with
    | [] => ⟨List.replicate width '0'⟩
    | c :: rest =>
        if c = '+' ∨ c = '-' then
          ⟨c :: (List.replicate (width - s.length) '0' ++ rest)⟩
        else
          ⟨List.replicate (width - s.length) '0' ++ (c :: rest)⟩

/-- The `np.loadtxt` converter of the batch driver applied to each input
code: `lambda s: s.zfill(len(s) + 1 if len(s) % 2 == 1 else len(s))`. -/
def padCode (s : String) : String :=
  zfill s (if s.length % 2 = 1 then s.length + 1 else s.length)

-- Concrete fixtures used by the scenario claims.

/-- Scenario A/B graph: single edge `"0101" → "0102"` effective 2020-01-01. -/
def gAB : Graph := ⟨[⟨"0101", "0102", 20200101, "change"⟩]⟩

/-- Scenario C graph: split `"02" → "03"` and `"02" → "04"`, both effective
2015-01-01. -/
def gC : Graph := ⟨[⟨"02", "03", 20150101, "split"⟩, ⟨"02", "04", 20150101, "split"⟩]⟩

/-- Scenario D graph: chain `"A" → "B"` effective 2000-01-01 and
`"B" → "C"` effective 2010-01-01. -/
def gD : Graph := ⟨[⟨"A", "B", 20000101, "merge"⟩, ⟨"B", "C", 20100101, "merge"⟩]⟩


/-! ## Helper lemmas -/

theorem find_current_geo_of_mem {g : Graph} {node : String} {date : Int}
    {all_current : List String} (hmem : node ∈ g.nodes) :
    find_current_geo g node date all_current =
      Except.ok (intersect1d
        (if Graph.nodes ⟨futureEdges g (descendants g node) date⟩ = []
         then [node]
         else Graph.nodes ⟨futureEdges g (descendants g node) date⟩)
        all_current) := by
  unfold find_current_geo create_children_graph
  rw [if_pos hmem]

theorem find_current_geo_of_not_mem {g : Graph} {node : String} {date : Int}
    {all_current : List String} (hmem : node ∉ g.nodes) :
    find_current_geo g node date all_current =
      (if node ∈ all_current then
        Except.ok (intersect1d [node] all_current)
      else
        Except.error ("Geographic unit " ++ node ++ " does not exist.")) := by
  unfold find_current_geo create_children_graph
  rw [if_neg hmem]

theorem mem_insertSorted {x y : String} {l : List String} :
    x ∈ insertSorted y l ↔ x = y ∨ x ∈ l := by
  induction l with
  | nil => simp [insertSorted]
  | cons z zs ih =>
      unfold insertSorted
      cases hzy : strLt z y
      · simp only [hzy, Bool.false_eq_true, if_false, List.mem_cons]
      · simp only [hzy, if_true, List.mem_cons, ih]
        tauto

theorem mem_sortStr {x : String} {l : List String} :
    x ∈ sortStr l ↔ x ∈ l := by
  induction l with
  | nil => simp [sortStr]
  | cons y ys ih =>
      show x ∈ insertSorted y (sortStr ys) ↔ _
      rw [mem_insertSorted, ih]
      simp

theorem mem_intersect1d_right {x : String} {a b : List String}
    (hx : x ∈ intersect1d a b) : x ∈ b := by
  unfold intersect1d at hx
  rw [mem_sortStr, List.mem_dedup, List.mem_filter] at hx
  simpa using hx.2

theorem intersect1d_singleton_of_mem {c : String} {b : List String}
    (h : c ∈ b) : intersect1d [c] b = [c] := by
  unfold intersect1d
  have hf : List.filter (fun x => decide (x ∈ b)) [c] = [c] := by
    simp [List.filter, h]
  rw [hf]
  rfl

theorem intersect1d_singleton_of_not_mem {c : String} {b : List String}
    (h : c ∉ b) : intersect1d [c] b = [] := by
  unfold intersect1d
  have hf : List.filter (fun x => decide (x ∈ b)) [c] = [] := by
    simp [List.filter, h]
  rw [hf]
  rfl

theorem stepReach_singleton_no_out {g : Graph} {c : String}
    (h : ∀ e ∈ g.edges, e.src ≠ c) : stepReach g [c] = [c] := by
  unfold stepReach
  have hf : g.edges.filter (fun e => decide (e.src ∈ [c])) = [] := by
    rw [List.filter_eq_nil_iff]
    intro e he
    simpa using h e he
  rw [hf]
  rfl

theorem reachAux_singleton_no_out {g : Graph} {c : String}
    (h : ∀ e ∈ g.edges, e.src ≠ c) : ∀ n, reachAux g n [c] = [c] := by
  intro n
  induction n with
  | zero => rfl
  | succ k ih =>
      show reachAux g k (stepReach g [c]) = [c]
      rw [stepReach_singleton_no_out h]
      exact ih

theorem descendants_singleton_no_out {g : Graph} {c : String}
    (h : ∀ e ∈ g.edges, e.src ≠ c) : descendants g c = [c] :=
  reachAux_singleton_no_out h g.edges.length

theorem inducedEdges_singleton_no_out {g : Graph} {c : String}
    (h : ∀ e ∈ g.edges, e.src ≠ c) : inducedEdges g [c] = [] := by
  unfold inducedEdges
  rw [List.filter_eq_nil_iff]
  intro e he
  simp only [List.mem_singleton, Bool.and_eq_true, decide_eq_true_eq, not_and]
  intro hsrc _
  exact h e he hsrc

theorem nodes_of_ne_nil {es : List Edge} (h : es ≠ []) :
    Graph.nodes ⟨es⟩ ≠ [] := by
  unfold Graph.nodes
  rw [Ne, List.dedup_eq_nil]
  cases es with
  | nil => exact absurd rfl h
  | cons e es' => simp

theorem batchLoopAux_eq_filterMap (env : BatchEnv) (acc : List OutLine)
    (qs : List (String × Int)) :
    batchLoopAux env acc qs = acc ++ qs.filterMap (batchResolveOne env) := by
  induction qs generalizing acc with
  | nil => simp [batchLoopAux]
  | cons q rest ih =>
      obtain ⟨node, year⟩ := q
      by_cases h4 : node.length = 4
      · simp only [batchLoopAux, batchResolveOne, h4, if_true, ih,
          List.filterMap_cons, List.append_assoc]
        rfl
      · by_cases h2 : node.length = 2
        · simp only [batchLoopAux, batchResolveOne, h4, h2, if_true, if_false,
            ih, List.filterMap_cons, List.append_assoc]
          rfl
        · simp only [batchLoopAux, batchResolveOne, h4, h2, if_false, ih,
            List.filterMap_cons]

/-! ## Claims -/

/-- C1 counterexample: on the Scenario B instance — single edge
`"0101" → "0102"` effective 2020-01-01, current set `{"0102"}`, query date
2021-01-01 — the query node is in the graph and no edge of the subgraph
induced by its descendants is dated on or after the query date, yet
`find_current_geo` does not return `{"0101"}`: the fallback `[node]` is
still intersected with the current set, giving the empty result. -/
theorem fallback_unconditional_singleton_cex :
    "0101" ∈ gAB.nodes ∧
    futureEdges gAB (descendants gAB "0101") 20210101 = [] ∧
    find_current_geo gAB "0101" 20210101 ["0102"] ≠ Except.ok ["0101"] ∧
    find_current_geo gAB "0101" 20210101 ["0102"] = Except.ok [] := by
  refine ⟨by decide, by decide, by decide, by decide⟩

/-- C1 (amended): when the query node is in the graph and no edge of the
subgraph induced by its descendants has effective date on or after the
query date, `find_current_geo` returns the fallback singleton `[node]`
intersected with the current set — so `[node]` exactly when `node` is a
member of the current set, and the empty set otherwise. -/
theorem fallback_singleton_intersected (g : Graph) (node : String) (d : Int)
    (cs : List String) (hmem : node ∈ g.nodes)
    (hfe : futureEdges g (descendants g node) d = []) :
    find_current_geo g node d cs = Except.ok (intersect1d [node] cs) ∧
    (node ∈ cs → find_current_geo g node d cs = Except.ok [node]) ∧
    (node ∉ cs → find_current_geo g node d cs = Except.ok []) := by
  have h1 : find_current_geo g node d cs = Except.ok (intersect1d [node] cs) := by
    rw [find_current_geo_of_mem hmem, hfe]
    rw [show Graph.nodes ⟨[]⟩ = [] from rfl, if_pos rfl]
  exact ⟨h1, fun hc => by rw [h1, intersect1d_singleton_of_mem hc],
    fun hc => by rw [h1, intersect1d_singleton_of_not_mem hc]⟩

/-- C1 witness: the amended statement evaluated on the Scenario B instance,
where `"0101"` is not current: the result is empty. -/
theorem fallback_singleton_intersected_witness :
    find_current_geo gAB "0101" 20210101 ["0102"] = Except.ok [] :=
  (fallback_singleton_intersected gAB "0101" 20210101 ["0102"]
    (by decide) (by decide)).2.2 (by decide)

/-- C2: whenever `find_current_geo` returns normally, every code of the
result is a member of `all_current` — the `np.intersect1d` with the
current-code set is applied on every return path, including the
no-future-edge fallback and the node-absent-but-current path. -/
theorem result_subset_all_current (g : Graph) (node : String) (d : Int)
    (all_current : List String) (r : List String)
    (h : find_current_geo g node d all_current = Except.ok r) :
    ∀ x ∈ r, x ∈ all_current := by
  intro x hx
  by_cases hmem : node ∈ g.nodes
  · rw [find_current_geo_of_mem hmem] at h
    injection h with h
    subst h
    exact mem_intersect1d_right hx
  · rw [find_current_geo_of_not_mem hmem] at h
    by_cases hcur : node ∈ all_current
    · rw [if_pos hcur] at h
      injection h with h
      subst h
      exact mem_intersect1d_right hx
    · rw [if_neg hcur] at h
      exact absurd h (by simp)

/-- C2 witness: the subset property applied on the no-future-edge fallback
with a current query node: the result `["0102"]` is inside the current
set, and in particular its member `"0102"` is. -/
theorem result_subset_all_current_witness :
    "0102" ∈ ["0102"] :=
  result_subset_all_current gAB "0102" 20200201 ["0102"] ["0102"]
    (by decide) "0102" (by decide)

/-- C3: a code that is neither a node of the graph nor a member of the
current set makes `find_current_geo` raise the unknown-unit `ValueError`
(an error, not a normal return). -/
theorem unknown_unit_raises (g : Graph) (c : String) (d : Int)
    (cs : List String) (hg : c ∉ g.nodes) (hc : c ∉ cs) :
    find_current_geo g c d cs
      = Except.error ("Geographic unit " ++ c ++ " does not exist.") := by
  rw [find_current_geo_of_not_mem hg, if_neg hc]

/-- C3 witness: the unknown code `"9999"` on the Scenario A/B graph with
current set `{"0102"}` raises the unknown-unit error. -/
theorem unknown_unit_raises_witness :
    find_current_geo gAB "9999" 20000101 ["0102"]
      = Except.error ("Geographic unit " ++ "9999" ++ " does not exist.") :=
  unknown_unit_raises gAB "9999" 20000101 ["0102"] (by decide) (by decide)

/-- C4: a code that is in the current set and has no outgoing edge in the
graph — whether absent from the graph entirely or present with only
incoming edges — resolves to itself at every date. -/
theorem current_no_outgoing_returns_self (g : Graph) (c : String) (d : Int)
    (cs : List String) (hcur : c ∈ cs) (hout : ∀ e ∈ g.edges, e.src ≠ c) :
    find_current_geo g c d cs = Except.ok [c] := by
  by_cases hmem : c ∈ g.nodes
  · rw [find_current_geo_of_mem hmem, descendants_singleton_no_out hout]
    have hfe : futureEdges g [c] d = [] := by
      unfold futureEdges
      rw [inducedEdges_singleton_no_out hout]
      rfl
    rw [hfe, show Graph.nodes ⟨[]⟩ = [] from rfl, if_pos rfl,
      intersect1d_singleton_of_mem hcur]
  · rw [find_current_geo_of_not_mem hmem, if_pos hcur,
      intersect1d_singleton_of_mem hcur]

/-- C4 witness: on the Scenario A/B graph, the current code `"0102"` (a
graph node with only an incoming edge) resolves to itself, and the current
code `"05"` (absent from the graph entirely) resolves to itself. -/
theorem current_no_outgoing_returns_self_witness :
    find_current_geo gAB "0102" 20000101 ["0102"] = Except.ok ["0102"] ∧
    find_current_geo gAB "05" 19000101 ["05", "0102"] = Except.ok ["05"] :=
  ⟨current_no_outgoing_returns_self gAB "0102" 20000101 ["0102"]
      (by decide) (by decide),
    current_no_outgoing_returns_self gAB "05" 19000101 ["05", "0102"]
      (by decide) (by decide)⟩

/-- C5: when at least one qualifying edge exists, the candidate set is the
node set of the edge-induced subgraph of the selected on-or-after-date
edges; on the Scenario D chain `"A" → "B"` (2000) and `"B" → "C"` (2010)
with current set `{"C"}`, the query `("A", 2005)` selects only `"B" → "C"`,
its candidate set `["B", "C"]` excludes the query root `"A"`, and the
result is `{"C"}`; the query `("A", 1999)` also returns `{"C"}`. -/
theorem candidate_set_is_edge_subgraph_nodes (g : Graph) (node : String)
    (d : Int) (cs : List String) (hmem : node ∈ g.nodes)
    (hne : futureEdges g (descendants g node) d ≠ []) :
    (find_current_geo g node d cs = Except.ok (intersect1d
        (Graph.nodes ⟨futureEdges g (descendants g node) d⟩) cs)) ∧
    Graph.nodes ⟨futureEdges gD (descendants gD "A") 20050101⟩ = ["B", "C"] ∧
    "A" ∉ Graph.nodes ⟨futureEdges gD (descendants gD "A") 20050101⟩ ∧
    find_current_geo gD "A" 20050101 ["C"] = Except.ok ["C"] ∧
    find_current_geo gD "A" 19990101 ["C"] = Except.ok ["C"] := by
  refine ⟨?_, by decide, by decide, by decide, by decide⟩
  rw [find_current_geo_of_mem hmem, if_neg (nodes_of_ne_nil hne)]

/-- C5 witness: the general candidate-set equation applied to the Scenario
D chain at query `("A", 2005)`, evaluated to the final result `{"C"}`. -/
theorem candidate_set_is_edge_subgraph_nodes_witness :
    find_current_geo gD "A" 20050101 ["C"] = Except.ok ["C"] :=
  ((candidate_set_is_edge_subgraph_nodes gD "A" 20050101 ["C"]
      (by decide) (by decide)).1).trans (by decide)

/-- C6: an edge of the descendant-induced subgraph qualifies exactly when
its effective date is on or after the query date (the `v >= date` filter is
inclusive); hence on the single-edge graph `"0101" → "0102"` dated
2020-01-01 with current set `{"0102"}`, the query `("0101", 2019-06-01)`
returns `{"0102"}`. -/
theorem future_edge_selection_inclusive :
    (∀ (g : Graph) (ns : List String) (d : Int) (e : Edge),
        e ∈ futureEdges g ns d ↔ e ∈ inducedEdges g ns ∧ d ≤ e.date) ∧
    find_current_geo gAB "0101" 20190601 ["0102"] = Except.ok ["0102"] := by
  refine ⟨?_, by decide⟩
  intro g ns d e
  unfold futureEdges
  rw [List.mem_filter]
  simp

/-- C7: a one-to-many split returns every current branch: on the Scenario C
graph with edges `"02" → "03"` and `"02" → "04"` both dated 2015-01-01 and
current set `{"03", "04"}`, the query `("02", 2014-01-01)` returns
`{"03", "04"}`. -/
theorem split_returns_all_current_branches :
    find_current_geo gC "02" 20140101 ["03", "04"]
      = Except.ok ["03", "04"] := by decide

/-- C8: resolution is idempotent and side-effect-free on the graph: a call
of the resolver leaves the graph state (its edges with their attributes,
and hence its nodes) unchanged, and a second call on the post-call state
with the same arguments yields the identical result. -/
theorem resolution_idempotent_no_mutation (g : Graph) (node : String)
    (d : Int) (cs : List String) :
    (find_current_geo_call (find_current_geo_call g node d cs).2 node d cs).1
      = (find_current_geo_call g node d cs).1 ∧
    (find_current_geo_call g node d cs).2 = g ∧
    (find_current_geo_call g node d cs).2.edges = g.edges ∧
    (find_current_geo_call g node d cs).2.nodes = g.nodes :=
  ⟨rfl, rfl, rfl, rfl⟩

/-- C9: the batch loop resolves each query independently — it equals the
order-preserving `filterMap` of per-query resolution, where length 4
selects the kommun graph and current set and length 2 the län ones; a
query of any other length contributes no line; and a per-query resolution
error is caught and recorded as the empty result. -/
theorem batch_resolves_independently :
    (∀ (env : BatchEnv) (qs : List (String × Int)),
        batchMain env qs = qs.filterMap (batchResolveOne env)) ∧
    (∀ (g : Graph) (node : String) (d : Int) (cs : List String) (msg : String),
        find_current_geo g node d cs = Except.error msg →
          tryResolve g node d cs = []) ∧
    (∀ (env : BatchEnv) (q : String × Int),
        q.1.length ≠ 4 → q.1.length ≠ 2 → batchResolveOne env q = none) := by
  refine ⟨?_, ?_, ?_⟩
  · intro env qs
    exact batchLoopAux_eq_filterMap env [] qs
  · intro g node d cs msg h
    unfold tryResolve
    rw [h]
  · intro env q h4 h2
    unfold batchResolveOne
    rw [if_neg h4, if_neg h2]

/-- C9 witness: a concrete batch over the Scenario graphs — a kommun query
whose fallback is emptied by intersection, a län split query, a skipped
length-5 code, and an unknown kommun code whose error is caught — produces
exactly one line per resolved query in input order; and the unknown-unit
error of `"9999"` is recorded as the empty result. -/
theorem batch_resolves_independently_witness :
    batchMain ⟨gAB, ["0102"], gC, ["03", "04"]⟩
        [("0101", 20210101), ("02", 20140101), ("12345", 20000101),
          ("9999", 20000101)]
      = [⟨"0101", 20210101, []⟩, ⟨"02", 20140101, ["03", "04"]⟩,
          ⟨"9999", 20000101, []⟩] ∧
    tryResolve gAB "9999" 20000101 ["0102"] = [] :=
  ⟨(batch_resolves_independently.1 ⟨gAB, ["0102"], gC, ["03", "04"]⟩
      [("0101", 20210101), ("02", 20140101), ("12345", 20000101),
        ("9999", 20000101)]).trans (by decide),
    batch_resolves_independently.2.1 gAB "9999" 20000101 ["0102"]
      ("Geographic unit " ++ "9999" ++ " does not exist.") (by decide)⟩

/-- C10 counterexample: the odd-length batch-input code `"-"` does not get
a leading zero prepended — Python `str.zfill` keeps a leading sign in
place and inserts the zero after it, so the converter maps `"-"` to
`"-0"`, not `"0-"`. -/
theorem padCode_leading_zero_cex :
    ("-" : String).length % 2 = 1 ∧
    padCode "-" ≠ "0" ++ "-" ∧
    padCode "-" = "-0" := by
  refine ⟨by decide, by decide, by decide⟩

/-- C10 (amended): before type dispatch, every batch-input code of even
string length is left unchanged; every code of odd string length whose
first character is not a sign (`+` or `-`) has exactly one leading zero
prepended; an odd-length code starting with a sign instead gets the single
zero inserted directly after the sign. -/
theorem padCode_spec (s : String) :
    (s.length % 2 = 0 → padCode s = s) ∧
    (s.length % 2 = 1 → s.data.head? ≠ some '+' → s.data.head? ≠ some '-' →
      padCode s = "0" ++ s) ∧
    (s.length % 2 = 1 → ∀ (c : Char) (rest : List Char), s.data = c :: rest →
      (c = '+' ∨ c = '-') → padCode s = ⟨c :: '0' :: rest⟩) := by
  obtain ⟨l⟩ := s
  have hlen : String.length ⟨l⟩ = l.length := rfl
  refine ⟨?_, ?_, ?_⟩
  · intro heven
    unfold padCode
    rw [if_neg (by rw [hlen] at heven ⊢; omega)]
    unfold zfill
    rw [if_pos (le_refl _)]
  · intro hodd hp hm
    rw [hlen] at hodd
    cases l with
    | nil => simp at hodd
    | cons c rest =>
        have hc : ¬(c = '+' ∨ c = '-') := by
          rintro (h | h) <;> subst h
          · exact hp rfl
          · exact hm rfl
        unfold padCode
        rw [if_pos (by rw [hlen]; exact hodd)]
        unfold zfill
        rw [if_neg (by rw [hlen]; omega)]
        show (if c = '+' ∨ c = '-' then _ else _) = _
        rw [if_neg hc, hlen]
        have h1 : (c :: rest).length + 1 - (c :: rest).length = 1 := by omega
        rw [h1]
        rfl
  · intro hodd c rest hdata hsign
    have hl : l = c :: rest := hdata
    subst hl
    unfold padCode
    rw [if_pos hodd]
    unfold zfill
    rw [if_neg (by rw [hlen]; omega)]
    show (if c = '+' ∨ c = '-' then _ else _) = _
    rw [if_pos hsign, hlen]
    have h1 : (c :: rest).length + 1 - (c :: rest).length = 1 := by omega
    rw [h1]
    rfl

/-- C10 witness: the odd-length digit code `"123"` becomes `"0123"`, the
even-length code `"02"` is unchanged, and the odd-length sign-led code
`"-12"` gets its single zero inserted after the sign, giving `"-012"`. -/
theorem padCode_spec_witness :
    padCode "123" = "0" ++ "123" ∧ padCode "02" = "02" ∧ padCode "-12" = "-012" :=
  ⟨(padCode_spec "123").2.1 (by decide) (by decide) (by decide),
    (padCode_spec "02").1 (by decide),
    ((padCode_spec "-12").2.2 (by decide) '-' ['1', '2'] (by decide)
      (by decide)).trans (by decide)⟩
